import Mathlib

/-!
Shallow embedding of the MediAI Pro application (src/app.py) and proofs
about its health-score calculator, facility synthesizer, and credential
lookup. Python floats are modelled as exact rationals, Python ints as
integers, Python strings as Lean strings. Values drawn from the untyped
vitals dictionary (and the unchecked radius argument) are modelled by a
dynamic value type, so that the TypeError paths guarded by the source
try/except blocks are reachable; a raised exception is an `Except.error`.
Randomness is modelled by an explicit oracle passed to the function, and
the trigonometric `math.cos` composed with `math.radians` is abstracted
as an oracle parameter as well, since no verified property depends on it.
-/

namespace MediAI

/-- A dynamically typed Python value: a number (int or float, modelled as
an exact rational) or a string. Comparing a string against a number
raises TypeError in Python 3; here it is an `Except.error`. -/
inductive PyVal where
  | num (q : ℚ)
  | str (s : String)
deriving DecidableEq

/-- The `vitals: Dict` argument of calculate_health_score, as an
association list (Python dicts have unique keys; lookup takes the first
binding). -/
abbrev Vitals := List (String × PyVal)

/-- Python `d.get(key, default)`. -/
def dictGet (d : Vitals) (k : String) (default : PyVal) : PyVal :=
  match d.lookup k with
  | some v => v
  | none => default

/-- Python `v > n` for a dynamic `v` against a numeric literal `n`:
number comparison succeeds, a string raises TypeError. -/
def pyGtNum (v : PyVal) (n : ℚ) : Except String Bool :=
  match v with
  | .num q => .ok (decide (n < q))
  | .str _ => .error "TypeError"

/-- Python `v < n` for a dynamic `v` against a numeric literal `n`. -/
def pyLtNum (v : PyVal) (n : ℚ) : Except String Bool :=
  match v with
  | .num q => .ok (decide (q < n))
  | .str _ => .error "TypeError"

/-- Python short-circuit `or` of two boolean conditions, each of which
may raise. -/
def pyOr (a : Except String Bool) (b : Unit → Except String Bool) : Except String Bool :=
  match a with
  | .error e => .error e
  | .ok true => .ok true
  | .ok false => b ()

/-- Python `v / n` for a dynamic `v` (true division); a string raises
TypeError. -/
def pyDiv (v : PyVal) (n : ℚ) : Except String ℚ :=
  match v with
  | .num q => .ok (q / n)
  | .str _ => .error "TypeError"

/-- The mutable (score, risk_factors, recommendations) state threaded
through the body of HealthAnalytics.calculate_health_score. -/
structure ScoreState where
  score : ℤ
  risk_factors : List String
  recommendations : List String
deriving DecidableEq

/-- The dictionary returned by HealthAnalytics.calculate_health_score. -/
structure HealthResult where
  score : ℤ
  status : String
  color : String
  message : String
  risk_factors : List String
  recommendations : List String
deriving DecidableEq

/-- BMI Assessment section of calculate_health_score
(src/app.py lines 472-484). -/
def bmi_assessment (bmi : ℚ) (st : ScoreState) : ScoreState :=
  if bmi < 18.5 then
    { st with score := st.score - 15,
              risk_factors := st.risk_factors ++ ["Underweight"],
              recommendations := st.recommendations ++ ["Consider nutritional counseling"] }
  else if bmi > 30 then
    { st with score := st.score - 20,
              risk_factors := st.risk_factors ++ ["Obesity"],
              recommendations := st.recommendations ++ ["Weight management program recommended"] }
  else if bmi > 25 then
    { st with score := st.score - 10,
              risk_factors := st.risk_factors ++ ["Overweight"],
              recommendations := st.recommendations ++ ["Lifestyle modifications suggested"] }
  else st

/-- Blood Pressure Assessment section (src/app.py lines 486-497). -/
def bp_assessment (vitals : Vitals) (st : ScoreState) : Except String ScoreState :=
  let bp_sys := dictGet vitals "bp_systolic" (PyVal.num 120)
  let bp_dia := dictGet vitals "bp_diastolic" (PyVal.num 80)
  match pyOr (pyGtNum bp_sys 140) (fun _ => pyGtNum bp_dia 90) with
  | .error e => .error e
  | .ok true =>
    .ok { st with score := st.score - 25,
                  risk_factors := st.risk_factors ++ ["High Blood Pressure"],
                  recommendations := st.recommendations ++ ["Blood pressure monitoring needed"] }
  | .ok false =>
    match pyOr (pyGtNum bp_sys 130) (fun _ => pyGtNum bp_dia 85) with
    | .error e => .error e
    | .ok true =>
      .ok { st with score := st.score - 15,
                    risk_factors := st.risk_factors ++ ["Elevated Blood Pressure"],
                    recommendations := st.recommendations ++ ["Lifestyle changes recommended"] }
    | .ok false => .ok st

/-- Heart Rate Assessment section (src/app.py lines 499-508). -/
def heart_rate_assessment (vitals : Vitals) (st : ScoreState) : Except String ScoreState :=
  let pulse := dictGet vitals "pulse" (PyVal.num 75)
  match pyGtNum pulse 100 with
  | .error e => .error e
  | .ok true =>
    .ok { st with score := st.score - 15,
                  risk_factors := st.risk_factors ++ ["Tachycardia"],
                  recommendations := st.recommendations ++ ["Cardiac evaluation suggested"] }
  | .ok false =>
    match pyLtNum pulse 60 with
    | .error e => .error e
    | .ok true =>
      .ok { st with score := st.score - 10,
                    risk_factors := st.risk_factors ++ ["Bradycardia"],
                    recommendations := st.recommendations ++ ["Monitor heart rate regularly"] }
    | .ok false => .ok st

/-- Temperature Assessment section (src/app.py lines 510-515). -/
def temperature_assessment (vitals : Vitals) (st : ScoreState) : Except String ScoreState :=
  let temp := dictGet vitals "temperature" (PyVal.num 98.6)
  match pyGtNum temp 100.4 with
  | .error e => .error e
  | .ok true =>
    .ok { st with score := st.score - 20,
                  risk_factors := st.risk_factors ++ ["Fever"],
                  recommendations := st.recommendations ++ ["Monitor temperature and hydrate"] }
  | .ok false => .ok st

/-- SpO2 Assessment section (src/app.py lines 517-522). -/
def spo2_assessment (vitals : Vitals) (st : ScoreState) : Except String ScoreState :=
  let spo2 := dictGet vitals "spo2" (PyVal.num 98)
  match pyLtNum spo2 95 with
  | .error e => .error e
  | .ok true =>
    .ok { st with score := st.score - 25,
                  risk_factors := st.risk_factors ++ ["Low Oxygen Saturation"],
                  recommendations := st.recommendations ++ ["Respiratory evaluation needed"] }
  | .ok false => .ok st

/-- Age-based adjustments section (src/app.py lines 524-530). -/
def age_adjustment (age : ℤ) (st : ScoreState) : ScoreState :=
  if age > 65 then
    { st with score := st.score - 5,
              recommendations := st.recommendations ++ ["Regular geriatric check-ups"] }
  else if age > 50 then
    { st with score := st.score - 2,
              recommendations := st.recommendations ++ ["Age-appropriate screenings"] }
  else st

/-- Python `str.strip` with no arguments: remove leading and trailing
whitespace (identical to the Python behaviour on ASCII whitespace). -/
def py_strip (s : String) : String :=
  ⟨((s.data.dropWhile Char.isWhitespace).reverse.dropWhile Char.isWhitespace).reverse⟩

/-- Symptoms impact section (src/app.py lines 532-535): Python reads
`if symptoms and len(symptoms.strip()) > 10`; a nonempty string is
truthy. -/
def symptoms_impact (symptoms : String) (st : ScoreState) : ScoreState :=
  if symptoms ≠ "" ∧ (py_strip symptoms).length > 10 then
    { st with score := st.score - 10,
              recommendations := st.recommendations ++ ["Symptom evaluation recommended"] }
  else st

/-- Clamping and the status/color/message mapping at the tail of
calculate_health_score (src/app.py lines 537-563). -/
def finalize (st : ScoreState) : HealthResult :=
  let score := max 0 (min 100 st.score)
  if score ≥ 85 then
    { score := score, status := "Excellent", color := "#4CAF50",
      message := "Your health indicators are excellent!",
      risk_factors := st.risk_factors, recommendations := st.recommendations }
  else if score ≥ 70 then
    { score := score, status := "Good", color := "#8BC34A",
      message := "Your health is generally good with minor areas for improvement.",
      risk_factors := st.risk_factors, recommendations := st.recommendations }
  else if score ≥ 55 then
    { score := score, status := "Fair", color := "#FF9800",
      message := "Some health concerns need attention.",
      risk_factors := st.risk_factors, recommendations := st.recommendations }
  else
    { score := score, status := "Poor", color := "#F44336",
      message := "Multiple health concerns require immediate attention.",
      risk_factors := st.risk_factors, recommendations := st.recommendations }

/-- The score-to-status mapping of src/app.py lines 539-554 as a
standalone function of the clamped score. -/
def status_of (score : ℤ) : String :=
  if score ≥ 85 then "Excellent"
  else if score ≥ 70 then "Good"
  else if score ≥ 55 then "Fair"
  else "Poor"

/-- Rank of a status tier in the order Poor < Fair < Good < Excellent,
used to state monotonicity of the status mapping. -/
def statusRank (s : String) : ℕ :=
  if s = "Excellent" then 3
  else if s = "Good" then 2
  else if s = "Fair" then 1
  else 0

/-- The try-block body of HealthAnalytics.calculate_health_score
(src/app.py lines 467-563); an uncaught TypeError from a string-valued
vitals entry surfaces as `Except.error`. -/
def calculate_health_score_body (vitals : Vitals) (bmi : ℚ) (age : ℤ)
    (symptoms : String) : Except String HealthResult :=
  let st : ScoreState := { score := 100, risk_factors := [], recommendations := [] }
  let st := bmi_assessment bmi st
  match bp_assessment vitals st with
  | .error e => .error e
  | .ok st =>
  match heart_rate_assessment vitals st with
  | .error e => .error e
  | .ok st =>
  match temperature_assessment vitals st with
  | .error e => .error e
  | .ok st =>
  match spo2_assessment vitals st with
  | .error e => .error e
  | .ok st =>
  let st := age_adjustment age st
  let st := symptoms_impact symptoms st
  .ok (finalize st)

/-- The fixed fallback returned by the except-branch of
calculate_health_score (src/app.py lines 564-570). -/
def fallback_result : HealthResult :=
  { score := 75, status := "Good", color := "#8BC34A",
    message := "Health assessment completed.",
    risk_factors := [], recommendations := [] }

/-- HealthAnalytics.calculate_health_score (src/app.py lines 465-570):
the try-block body with a catch-all substituting the fixed fallback. -/
def calculate_health_score (vitals : Vitals) (bmi : ℚ) (age : ℤ)
    (symptoms : String) : HealthResult :=
  match calculate_health_score_body vitals bmi age symptoms with
  | .ok r => r
  | .error _ => fallback_result

/-- A well-typed numeric vitals dictionary. -/
def mkVitals (sys dia pulse temp spo2 : ℚ) : Vitals :=
  [("bp_systolic", PyVal.num sys), ("bp_diastolic", PyVal.num dia),
   ("pulse", PyVal.num pulse), ("temperature", PyVal.num temp),
   ("spo2", PyVal.num spo2)]

/-- An entry of the hardcoded facilities_data catalog inside
MedicalFacilitiesService.search_facilities (src/app.py lines 371-422). -/
structure CatalogFacility where
  name : String
  rating : ℚ
  base_distance : ℚ
  specialty : String
deriving DecidableEq

/-- The hospital list of facilities_data (src/app.py lines 372-407). -/
def hospital_catalog : List CatalogFacility :=
  [⟨"City General Hospital", 4.2, 2.3, "General Medicine"⟩,
   ⟨"Metro Medical Center", 4.5, 3.7, "Emergency Care"⟩,
   ⟨"Advanced Care Hospital", 4.1, 5.2, "Cardiology"⟩,
   ⟨"University Medical College", 4.6, 6.8, "Research & Teaching"⟩,
   ⟨"Specialty Care Center", 4.3, 4.5, "Specialized Treatment"⟩,
   ⟨"Regional Medical Hospital", 4.4, 8.2, "Multi-Specialty"⟩,
   ⟨"Heart & Vascular Institute", 4.7, 9.5, "Cardiology"⟩,
   ⟨"Children\x27s Hospital", 4.8, 12.1, "Pediatrics"⟩,
   ⟨"Cancer Treatment Center", 4.6, 15.3, "Oncology"⟩,
   ⟨"Orthopedic Hospital", 4.2, 18.7, "Orthopedics"⟩,
   ⟨"Neuroscience Institute", 4.5, 22.4, "Neurology"⟩,
   ⟨"Women\x27s Health Center", 4.4, 25.8, "Gynecology"⟩,
   ⟨"Eye Care Hospital", 4.3, 28.2, "Ophthalmology"⟩,
   ⟨"Rehabilitation Center", 4.1, 32.5, "Rehabilitation"⟩,
   ⟨"Mental Health Institute", 4.0, 35.7, "Psychiatry"⟩,
   ⟨"Community Hospital East", 3.9, 38.3, "General Medicine"⟩,
   ⟨"Surgical Specialty Hospital", 4.5, 42.1, "Surgery"⟩,
   ⟨"Diabetes Care Center", 4.2, 45.6, "Endocrinology"⟩,
   ⟨"Kidney Treatment Center", 4.1, 48.9, "Nephrology"⟩,
   ⟨"Emergency Medical Center", 4.0, 52.3, "Emergency Medicine"⟩,
   ⟨"Regional Trauma Center", 4.4, 55.8, "Trauma Care"⟩,
   ⟨"Maternity Hospital", 4.3, 58.2, "Obstetrics"⟩,
   ⟨"Spine & Back Institute", 4.2, 61.5, "Spinal Care"⟩,
   ⟨"Skin & Allergy Center", 4.1, 64.7, "Dermatology"⟩,
   ⟨"Digestive Health Center", 4.0, 67.9, "Gastroenterology"⟩,
   ⟨"Sports Medicine Hospital", 4.3, 71.2, "Sports Medicine"⟩,
   ⟨"Senior Care Medical Center", 3.8, 74.5, "Geriatrics"⟩,
   ⟨"Respiratory Care Hospital", 4.1, 77.8, "Pulmonology"⟩,
   ⟨"Blood & Cancer Institute", 4.4, 81.2, "Hematology"⟩,
   ⟨"Plastic Surgery Center", 4.0, 84.5, "Plastic Surgery"⟩,
   ⟨"Pain Management Clinic", 3.9, 87.8, "Pain Management"⟩,
   ⟨"Sleep Disorder Center", 4.2, 91.1, "Sleep Medicine"⟩,
   ⟨"Addiction Treatment Center", 4.0, 94.4, "Addiction Medicine"⟩,
   ⟨"District General Hospital", 3.7, 97.7, "General Medicine"⟩]

/-- The pharmacy list of facilities_data (src/app.py lines 408-414). -/
def pharmacy_catalog : List CatalogFacility :=
  [⟨"HealthPlus Pharmacy", 4.4, 0.8, "24/7 Service"⟩,
   ⟨"MediCare Drugs", 4.1, 1.2, "Prescription Specialist"⟩,
   ⟨"Quick Meds Pharmacy", 4.2, 1.8, "Fast Service"⟩,
   ⟨"Family Pharmacy", 4.5, 2.1, "Consultation Available"⟩,
   ⟨"Express Medicine", 4.0, 1.5, "Home Delivery"⟩]

/-- The clinic list of facilities_data (src/app.py lines 415-421). -/
def clinic_catalog : List CatalogFacility :=
  [⟨"Family Health Clinic", 4.6, 1.4, "Family Medicine"⟩,
   ⟨"Quick Care Medical", 4.2, 2.8, "Walk-in Clinic"⟩,
   ⟨"Primary Care Center", 4.3, 3.2, "Preventive Care"⟩,
   ⟨"Urgent Care Plus", 4.4, 2.5, "Urgent Care"⟩,
   ⟨"Community Health Clinic", 4.1, 3.8, "Community Care"⟩]

/-- Python `facilities_data.get(facility_type, facilities_data['hospital'])`
(src/app.py line 424). -/
def facilities_for (facility_type : String) : List CatalogFacility :=
  if facility_type = "pharmacy" then pharmacy_catalog
  else if facility_type = "clinic" then clinic_catalog
  else hospital_catalog

/-- Oracle for the random module calls made per surviving facility,
indexed by the position of the facility among the survivors (the source
draws them sequentially in that order): random.uniform(-0.3, 0.3),
random.choice([-1, 1]) for the latitude and the longitude offset,
random.randint(50, 500), and random.randint(9000000000, 9999999999). -/
structure Rng where
  uniform : ℕ → ℚ
  lat_sign : ℕ → ℚ
  lon_sign : ℕ → ℚ
  ratings_total : ℕ → ℕ
  phone_digits : ℕ → ℕ

/-- Python `round(q, 2)`, modelled as rounding to the nearest hundredth
(the float ties-to-even behaviour differs only at exact midpoints, which
no verified property depends on). -/
def round2 (q : ℚ) : ℚ := (round (q * 100) : ℤ) / 100

/-- Python float formatting with one decimal place, as used in the
address f-string. -/
def fmt1 (q : ℚ) : String :=
  let n : ℤ := round (q * 10)
  toString (n / 10) ++ "." ++ toString (n % 10)

/-- The facility_info dictionary built for one surviving catalog entry
(src/app.py lines 430-453). -/
structure FacilityInfo where
  name : String
  rating : ℚ
  user_ratings_total : ℕ
  address : String
  status : String
  place_id : String
  lat : ℚ
  lng : ℚ
  distance : ℚ
  types : List String
  specialty : String
  phone : String
  hours : String
deriving DecidableEq

/-- Building the facility_info dictionary for the i-th surviving catalog
entry (src/app.py lines 430-453). `cosd` abstracts the composite
`math.cos(math.radians(lat))` of the source. -/
def mkFacilityInfo (rng : Rng) (cosd : ℚ → ℚ) (lat lon : ℚ)
    (facility_type : String) (i : ℕ) (f : CatalogFacility) : FacilityInfo :=
  let distance_variation := rng.uniform i
  let actual_distance := max 0.1 (f.base_distance + distance_variation)
  let lat_offset := (actual_distance / 111.32) * rng.lat_sign i
  let lon_offset := (actual_distance / (111.32 * cosd lat)) * rng.lon_sign i
  { name := f.name
    rating := f.rating
    user_ratings_total := rng.ratings_total i
    address := f.name ++ " St, Medical District, City - " ++ fmt1 actual_distance ++ "km away"
    status := "OPERATIONAL"
    place_id := "demo_" ++ (f.name.replace " " "_").toLower
    lat := lat + lat_offset
    lng := lon + lon_offset
    distance := round2 actual_distance
    types := [facility_type]
    specialty := f.specialty
    phone := "+91-" ++ toString (rng.phone_digits i)
    hours := if facility_type = "hospital" then "Open 24 hours" else "Mon-Sat: 9 AM - 9 PM" }

/-- The ascending-by-distance order used by the final
`result_facilities.sort(key=lambda x: x['distance'])`. -/
def byDistance (a b : FacilityInfo) : Prop := a.distance ≤ b.distance

instance : DecidableRel byDistance :=
  fun a b => inferInstanceAs (Decidable (a.distance ≤ b.distance))

instance : IsTotal FacilityInfo byDistance := ⟨fun a b => le_total a.distance b.distance⟩

instance : IsTrans FacilityInfo byDistance := ⟨fun _ _ _ => le_trans⟩

/-- The try-block body of MedicalFacilitiesService.search_facilities
(src/app.py lines 369-457). The radius argument is dynamically typed (a
non-numeric value raises TypeError at `radius / 1000`). The final
stable ascending sort of the source is modelled with insertion sort,
which computes the same list as any stable sort by the same key. -/
def search_facilities_body (rng : Rng) (cosd : ℚ → ℚ) (lat lon : ℚ)
    (facility_type : String) (radius : PyVal) : Except String (List FacilityInfo) :=
  let facilities := facilities_for facility_type
  match pyDiv radius 1000 with
  | .error e => .error e
  | .ok radius_km =>
    let survivors := facilities.filter (fun f => decide (f.base_distance ≤ radius_km))
    let result_facilities :=
      survivors.enum.map (fun p => mkFacilityInfo rng cosd lat lon facility_type p.1 p.2)
    .ok (result_facilities.insertionSort byDistance)

/-- MedicalFacilitiesService.search_facilities (src/app.py lines
367-461): the try-block body with a catch-all substituting the empty
list. -/
def search_facilities (rng : Rng) (cosd : ℚ → ℚ) (lat lon : ℚ)
    (facility_type : String) (radius : PyVal) : List FacilityInfo :=
  match search_facilities_body rng cosd lat lon facility_type radius with
  | .ok l => l
  | .error _ => []

/-- A secrets or environment mapping from credential names to values;
`none` models an absent key. -/
abbrev Lookup := String → Option String

/-- The per-key step of the alternative-name loop for the OpenAI key in
Config.get_api_key (src/app.py lines 42-49): the secret store is
consulted first (membership test, any value returned), then the
environment (only a truthy, i.e. nonempty, value is returned). -/
def alt_key_lookup (secrets env : Lookup) : List String → Option String
  | [] => none
  | k :: ks =>
    match secrets k with
    | some v => some v
    | none =>
      match env k with
      | some e => if e ≠ "" then some e else alt_key_lookup secrets env ks
      | none => alt_key_lookup secrets env ks

/-- The fallback_keys dictionary with its .get default (src/app.py
lines 52-59). -/
def fallback_keys (key_name : String) : String :=
  if key_name = "NEWS_API_KEY" then "demo-news-key"
  else if key_name = "GOOGLE_PLACES_API_KEY" then "demo-google-key"
  else if key_name = "OPENAI_API_KEY" then "demo-openai-key"
  else if key_name = "OPENWEATHER_API_KEY" then "demo-weather-key"
  else "demo-key"

/-- The part of Config.get_api_key after the primary secret-store and
environment checks have failed: the OpenAI alternative names, then the
demo fallback keys (src/app.py lines 41-59). -/
def get_api_key_tail (secrets env : Lookup) (key_name : String) : String :=
  if key_name = "OPENAI_API_KEY" then
    match alt_key_lookup secrets env ["OPENAI_KEY", "OPENAI_API_TOKEN", "OPENAI_TOKEN"] with
    | some v => v
    | none => fallback_keys key_name
  else fallback_keys key_name

/-- Config.get_api_key (src/app.py lines 29-63): platform secret store
first (membership test), then the environment variable (only if truthy,
i.e. nonempty), then the OpenAI alternative names, then the demo
sentinel. -/
def get_api_key (secrets env : Lookup) (key_name : String) : String :=
  match secrets key_name with
  | some v => v
  | none =>
    match env key_name with
    | some e => if e ≠ "" then e else get_api_key_tail secrets env key_name
    | none => get_api_key_tail secrets env key_name

/-- The API key held by AIService after construction (src/app.py lines
176-177): `Config.get_api_key('OPENAI_API_KEY')`, with no reference to
the session state. -/
def aiService_api_key (secrets env : Lookup) : String :=
  get_api_key secrets env "OPENAI_API_KEY"

/-- The OpenAI key computed by main for the sidebar status display
(src/app.py line 863): Python
`st.session_state.get('openai_api_key') or Config.get_api_key('OPENAI_API_KEY')`,
where `or` returns its first truthy operand. -/
def main_openai_key (session : Option String) (secrets env : Lookup) : String :=
  match session with
  | some s => if s ≠ "" then s else get_api_key secrets env "OPENAI_API_KEY"
  | none => get_api_key secrets env "OPENAI_API_KEY"

/-- The everywhere-absent lookup. -/
def emptyLookup : Lookup := fun _ => none

/-- A deterministic instance of the randomness oracle, used to
instantiate universally quantified theorems at a concrete input. -/
def rngZero : Rng :=
  { uniform := fun _ => 0, lat_sign := fun _ => 1, lon_sign := fun _ => 1,
    ratings_total := fun _ => 50, phone_digits := fun _ => 9000000000 }

/-- A concrete stand-in for the abstracted cosine oracle. -/
def cosOne : ℚ → ℚ := fun _ => 1

end MediAI

namespace MediAI

/-! Helper lemmas about the score pipeline. -/

/-- The returned score is the clamp of the accumulated score. -/
theorem finalize_score (st : ScoreState) : (finalize st).score = max 0 (min 100 st.score) := by
  simp only [finalize]
  split_ifs <;> rfl

/-- The returned status is the status mapping applied to the clamped score. -/
theorem finalize_status (st : ScoreState) :
    (finalize st).status = status_of (max 0 (min 100 st.score)) := by
  simp only [finalize, status_of]
  split_ifs <;> rfl

/-- finalize passes the risk factors through unchanged. -/
theorem finalize_risk (st : ScoreState) : (finalize st).risk_factors = st.risk_factors := by
  simp only [finalize]
  split_ifs <;> rfl

/-- finalize passes the recommendations through unchanged. -/
theorem finalize_recs (st : ScoreState) : (finalize st).recommendations = st.recommendations := by
  simp only [finalize]
  split_ifs <;> rfl

/-- Every result of calculate_health_score is the fixed fallback or the
finalization of some accumulated state. -/
theorem calc_shape (v : Vitals) (b : ℚ) (a : ℤ) (s : String) :
    calculate_health_score v b a s = fallback_result ∨
    ∃ st, calculate_health_score v b a s = finalize st := by
  unfold calculate_health_score calculate_health_score_body
  dsimp only
  cases hbp : bp_assessment v (bmi_assessment b { score := 100, risk_factors := [], recommendations := [] }) with
  | error e => left; rfl
  | ok st1 =>
    dsimp only
    cases hhr : heart_rate_assessment v st1 with
    | error e => left; rfl
    | ok st2 =>
      dsimp only
      cases htp : temperature_assessment v st2 with
      | error e => left; rfl
      | ok st3 =>
        dsimp only
        cases hsp : spo2_assessment v st3 with
        | error e => left; rfl
        | ok st4 => right; exact ⟨_, rfl⟩

/-- Evaluation of calculate_health_score along a given successful run of
the four fallible assessment sections. -/
theorem calc_eval (v : Vitals) (b : ℚ) (a : ℤ) (s : String) (st1 st2 st3 st4 : ScoreState)
    (h1 : bp_assessment v (bmi_assessment b { score := 100, risk_factors := [], recommendations := [] }) = .ok st1)
    (h2 : heart_rate_assessment v st1 = .ok st2)
    (h3 : temperature_assessment v st2 = .ok st3)
    (h4 : spo2_assessment v st3 = .ok st4) :
    calculate_health_score v b a s = finalize (symptoms_impact s (age_adjustment a st4)) := by
  unfold calculate_health_score calculate_health_score_body
  dsimp only
  rw [h1]; dsimp only; rw [h2]; dsimp only; rw [h3]; dsimp only; rw [h4]

/-- With an empty vitals dictionary every default is non-penalizing, so
only the BMI, age and symptom sections act. -/
theorem calc_empty (b : ℚ) (a : ℤ) (s : String) :
    calculate_health_score [] b a s =
      finalize (symptoms_impact s (age_adjustment a
        (bmi_assessment b { score := 100, risk_factors := [], recommendations := [] }))) := by
  simp only [calculate_health_score, calculate_health_score_body, bp_assessment,
    heart_rate_assessment, temperature_assessment, spo2_assessment, dictGet,
    List.lookup, pyOr, pyGtNum, pyLtNum]
  norm_num

/-- Looking up the temperature key in a numeric vitals dictionary. -/
theorem dictGet_temperature (sys dia pulse temp spo2 : ℚ) (d : PyVal) :
    dictGet (mkVitals sys dia pulse temp spo2) "temperature" d = PyVal.num temp := rfl

/-- Age 30 triggers no age adjustment. -/
theorem age30_id (st : ScoreState) : age_adjustment 30 st = st := by
  unfold age_adjustment
  rw [if_neg (by decide), if_neg (by decide)]

/-- Empty symptom text triggers no symptom penalty. -/
theorem symptoms_empty_id (st : ScoreState) : symptoms_impact "" st = st := by
  unfold symptoms_impact
  rw [if_neg (by simp)]

/-- BMI 22 triggers no BMI penalty. -/
theorem bmi22_id (st : ScoreState) : bmi_assessment 22 st = st := by
  unfold bmi_assessment
  rw [if_neg (by norm_num), if_neg (by norm_num), if_neg (by norm_num)]

/-- A string whose stripped form is longer than 10 characters is nonempty. -/
theorem py_strip_length_pos_ne_empty (s : String) (h : (py_strip s).length > 10) : s ≠ "" := by
  intro he
  rw [he] at h
  simp [py_strip] at h

/-! The claim theorems about the health score. -/

/-- C1: for every vitals dictionary, BMI, age and symptom text the
returned score lies in the closed interval from 0 to 100, and at an
input where every penalty condition holds simultaneously (obese BMI,
high blood pressure, abnormal pulse, fever, low SpO2, age over 65,
long symptom text) the returned score is exactly 0, never negative. -/
theorem health_score_clamped_and_zero_floor :
    (∀ (vitals : Vitals) (bmi : ℚ) (age : ℤ) (symptoms : String),
        0 ≤ (calculate_health_score vitals bmi age symptoms).score ∧
        (calculate_health_score vitals bmi age symptoms).score ≤ 100) ∧
    (calculate_health_score (mkVitals 150 95 110 101 90) 32 70
        "severe chest pain and dizziness").score = 0 := by
  constructor
  · intro v b a s
    rcases calc_shape v b a s with h | ⟨st, h⟩ <;> rw [h]
    · exact ⟨by norm_num [fallback_result], by norm_num [fallback_result]⟩
    · rw [finalize_score]; omega
  · have hbmi : bmi_assessment 32 { score := 100, risk_factors := [], recommendations := [] } =
        { score := 80, risk_factors := ["Obesity"],
          recommendations := ["Weight management program recommended"] } := by
      unfold bmi_assessment
      rw [if_neg (by norm_num), if_pos (by norm_num)]
      rfl
    have h1 : bp_assessment (mkVitals 150 95 110 101 90)
        (bmi_assessment 32 { score := 100, risk_factors := [], recommendations := [] }) =
        .ok { score := 55, risk_factors := ["Obesity", "High Blood Pressure"],
              recommendations := ["Weight management program recommended",
                "Blood pressure monitoring needed"] } := by
      rw [hbmi]; rfl
    have h3 : temperature_assessment (mkVitals 150 95 110 101 90)
        { score := 40, risk_factors := ["Obesity", "High Blood Pressure", "Tachycardia"],
          recommendations := ["Weight management program recommended",
            "Blood pressure monitoring needed", "Cardiac evaluation suggested"] } =
        .ok { score := 20,
              risk_factors := ["Obesity", "High Blood Pressure", "Tachycardia", "Fever"],
              recommendations := ["Weight management program recommended",
                "Blood pressure monitoring needed", "Cardiac evaluation suggested",
                "Monitor temperature and hydrate"] } := by
      simp only [temperature_assessment, dictGet_temperature, pyGtNum]
      norm_num
    rw [calc_eval (mkVitals 150 95 110 101 90) 32 70 "severe chest pain and dizziness"
      _ _ _ _ h1 rfl h3 rfl]
    norm_num [age_adjustment, symptoms_impact, finalize,
      show (py_strip "severe chest pain and dizziness").length = 31 from rfl,
      show ("severe chest pain and dizziness" : String) ≠ "" from by decide]

/-- The status rank of a mapped score as a threshold expression. -/
theorem statusRank_status_of (s : ℤ) :
    statusRank (status_of s) =
      if s ≥ 85 then 3 else if s ≥ 70 then 2 else if s ≥ 55 then 1 else 0 := by
  unfold status_of
  split_ifs <;> rfl

/-- C2: the score-to-status mapping is monotonic in the order
Poor, Fair, Good, Excellent and boundary-exact at 85, 84, 70, 69, 55
and 54, and the status returned by calculate_health_score is always
this mapping applied to the returned (clamped) score. -/
theorem status_mapping_monotonic_and_boundary_exact :
    (∀ s1 s2 : ℤ, s1 ≤ s2 → statusRank (status_of s1) ≤ statusRank (status_of s2)) ∧
    status_of 85 = "Excellent" ∧ status_of 84 = "Good" ∧
    status_of 70 = "Good" ∧ status_of 69 = "Fair" ∧
    status_of 55 = "Fair" ∧ status_of 54 = "Poor" ∧
    (∀ (vitals : Vitals) (bmi : ℚ) (age : ℤ) (symptoms : String),
        (calculate_health_score vitals bmi age symptoms).status =
          status_of (calculate_health_score vitals bmi age symptoms).score) := by
  refine ⟨?_, rfl, rfl, rfl, rfl, rfl, rfl, ?_⟩
  · intro s1 s2 h
    rw [statusRank_status_of, statusRank_status_of]
    split_ifs <;> omega
  · intro v b a s
    rcases calc_shape v b a s with h | ⟨st, h⟩ <;> rw [h]
    · rfl
    · rw [finalize_status, finalize_score]

/-- Witness for C2 at the concrete scores 0 and 100. -/
theorem status_mapping_witness :
    statusRank (status_of 0) ≤ statusRank (status_of 100) ∧ status_of 85 = "Excellent" :=
  ⟨status_mapping_monotonic_and_boundary_exact.1 0 100 (by decide),
   status_mapping_monotonic_and_boundary_exact.2.1⟩

/-- C3: with age 55, systolic 150, diastolic 95, pulse 72, temperature
98.6, SpO2 97, empty symptoms and any BMI in the closed interval from
18.5 to 25, the result is exactly score 73 and status Good, the risk
factors are exactly the high blood pressure label, and the only
deductions are the 25-point blood-pressure penalty and the 2-point
age-over-50 adjustment. -/
theorem scenario_age55_hypertension_score_73 (bmi : ℚ)
    (hb1 : 18.5 ≤ bmi) (hb2 : bmi ≤ 25) :
    calculate_health_score (mkVitals 150 95 72 98.6 97) bmi 55 "" =
      { score := 73, status := "Good", color := "#8BC34A",
        message := "Your health is generally good with minor areas for improvement.",
        risk_factors := ["High Blood Pressure"],
        recommendations := ["Blood pressure monitoring needed", "Age-appropriate screenings"] } := by
  have hbmi : bmi_assessment bmi { score := 100, risk_factors := [], recommendations := [] } =
      { score := 100, risk_factors := [], recommendations := [] } := by
    unfold bmi_assessment
    rw [if_neg (by linarith), if_neg (by linarith), if_neg (by linarith)]
  have h1 : bp_assessment (mkVitals 150 95 72 98.6 97)
      (bmi_assessment bmi { score := 100, risk_factors := [], recommendations := [] }) =
      .ok { score := 75, risk_factors := ["High Blood Pressure"],
            recommendations := ["Blood pressure monitoring needed"] } := by
    rw [hbmi]; rfl
  have h3 : temperature_assessment (mkVitals 150 95 72 98.6 97)
      { score := 75, risk_factors := ["High Blood Pressure"],
        recommendations := ["Blood pressure monitoring needed"] } =
      .ok { score := 75, risk_factors := ["High Blood Pressure"],
            recommendations := ["Blood pressure monitoring needed"] } := by
    simp only [temperature_assessment, dictGet_temperature, pyGtNum]
    norm_num
  rw [calc_eval (mkVitals 150 95 72 98.6 97) bmi 55 "" _ _ _ _ h1 rfl h3 rfl]
  norm_num [age_adjustment, symptoms_impact, finalize, py_strip]

/-- Witness for C3 at BMI 22. -/
theorem scenario_age55_hypertension_score_73_witness :
    (18.5 : ℚ) ≤ 22 ∧ (22 : ℚ) ≤ 25 ∧
    calculate_health_score (mkVitals 150 95 72 98.6 97) 22 55 "" =
      { score := 73, status := "Good", color := "#8BC34A",
        message := "Your health is generally good with minor areas for improvement.",
        risk_factors := ["High Blood Pressure"],
        recommendations := ["Blood pressure monitoring needed", "Age-appropriate screenings"] } :=
  ⟨by norm_num, by norm_num, scenario_age55_hypertension_score_73 22 (by norm_num) (by norm_num)⟩

/-- C4 counterexample: at BMI exactly 25 (which is outside the
half-open interval from 18.5 to 25 and hence penalized according to the
claim) the code subtracts no BMI penalty and records no risk factor:
with all other inputs non-penalizing the score is exactly 100. -/
theorem bmi_boundary_25_no_penalty :
    (25 : ℚ) ≥ 25 ∧
    (calculate_health_score [] 25 30 "").score = 100 ∧
    (calculate_health_score [] 25 30 "").risk_factors = [] := by
  refine ⟨le_refl _, ?_, ?_⟩ <;>
  · rw [calc_empty, symptoms_empty_id, age30_id]
    norm_num [bmi_assessment, finalize]

/-- C4 as amended: with all other inputs non-penalizing, the score is
strictly below 100 exactly when the BMI is strictly below 18.5 or
strictly above 25 (so the non-penalized region is the closed interval
from 18.5 to 25), and the recorded risk factor is Underweight,
Obesity or Overweight according to the source thresholds. -/
theorem bmi_penalty_characterization (bmi : ℚ) :
    ((calculate_health_score [] bmi 30 "").score < 100 ↔ (bmi < 18.5 ∨ bmi > 25)) ∧
    (calculate_health_score [] bmi 30 "").risk_factors =
      (if bmi < 18.5 then ["Underweight"]
       else if bmi > 30 then ["Obesity"]
       else if bmi > 25 then ["Overweight"] else []) := by
  rw [calc_empty, symptoms_empty_id, age30_id]
  unfold bmi_assessment
  split_ifs with hc1 hc2 hc3 <;>
    constructor <;>
    simp [finalize_score, finalize_risk] <;>
    first
      | (left; linarith)
      | (right; linarith)
      | (constructor <;> linarith)

/-- C5 counterexample: a symptom text of twelve blank characters has
length strictly greater than 10, yet no symptom penalty is subtracted
and no recommendation is appended, because the code measures the
length of the stripped text. -/
theorem symptom_whitespace_counterexample :
    ("            " : String).length = 12 ∧ (12 : ℕ) > 10 ∧
    (calculate_health_score [] 22 30 "            ").score = 100 ∧
    (calculate_health_score [] 22 30 "            ").recommendations = [] := by
  refine ⟨rfl, by norm_num, ?_, ?_⟩ <;>
  · rw [calc_empty, bmi22_id, age30_id]
    norm_num [symptoms_impact, finalize,
      show (py_strip "            ").length = 0 from rfl]

/-- C5 as amended: with all other inputs non-penalizing, the 10-point
symptom penalty is subtracted (and the symptom-evaluation
recommendation appended) exactly when the whitespace-stripped symptom
text has length strictly greater than 10. -/
theorem symptom_penalty_characterization (symptoms : String) :
    (calculate_health_score [] 22 30 symptoms).score =
      (if (py_strip symptoms).length > 10 then 90 else 100) ∧
    (calculate_health_score [] 22 30 symptoms).recommendations =
      (if (py_strip symptoms).length > 10 then ["Symptom evaluation recommended"] else []) := by
  rw [calc_empty, age30_id, bmi22_id]
  by_cases h : (py_strip symptoms).length > 10
  · have hne := py_strip_length_pos_ne_empty symptoms h
    rw [if_pos h, if_pos h]
    unfold symptoms_impact
    rw [if_pos ⟨hne, h⟩]
    constructor
    · rw [finalize_score]; rfl
    · rw [finalize_recs]; rfl
  · rw [if_neg h, if_neg h]
    unfold symptoms_impact
    rw [if_neg (by intro hc; exact h hc.2)]
    constructor
    · rw [finalize_score]; rfl
    · rw [finalize_recs]

/-- C6: whenever the body of calculate_health_score raises, the
function returns exactly the fixed fallback with score 75, status Good
and empty lists; and whenever the body of search_facilities raises,
the function returns exactly the empty list. -/
theorem internal_error_yields_fixed_fallbacks :
    (∀ (vitals : Vitals) (bmi : ℚ) (age : ℤ) (symptoms : String) (e : String),
        calculate_health_score_body vitals bmi age symptoms = .error e →
        calculate_health_score vitals bmi age symptoms = fallback_result) ∧
    (∀ (rng : Rng) (cosd : ℚ → ℚ) (lat lon : ℚ) (t : String) (radius : PyVal) (e : String),
        search_facilities_body rng cosd lat lon t radius = .error e →
        search_facilities rng cosd lat lon t radius = []) := by
  constructor
  · intro v b a s e h
    unfold calculate_health_score
    rw [h]
  · intro rng cosd lat lon t radius e h
    unfold search_facilities
    rw [h]

/-- A string-valued blood pressure entry raises TypeError inside the
score body. -/
theorem calc_body_typeerror_example :
    calculate_health_score_body [("bp_systolic", PyVal.str "high")] 22 30 "" =
      .error "TypeError" := by
  unfold calculate_health_score_body
  dsimp only
  rw [bmi22_id]
  rfl

/-- A string-valued radius raises TypeError inside the facilities body. -/
theorem search_body_typeerror_example :
    search_facilities_body rngZero cosOne 0 0 "hospital" (PyVal.str "10k") =
      .error "TypeError" := rfl

/-- Witness for C6 at two concrete faulting inputs. -/
theorem internal_error_yields_fixed_fallbacks_witness :
    calculate_health_score [("bp_systolic", PyVal.str "high")] 22 30 "" = fallback_result ∧
    search_facilities rngZero cosOne 0 0 "hospital" (PyVal.str "10k") = [] :=
  ⟨internal_error_yields_fixed_fallbacks.1 _ 22 30 "" "TypeError" calc_body_typeerror_example,
   internal_error_yields_fixed_fallbacks.2 rngZero cosOne 0 0 "hospital" (PyVal.str "10k")
     "TypeError" search_body_typeerror_example⟩

/-! Helper lemmas about the facilities pipeline. -/

/-- Every member of a search result arises from a catalog facility that
passed the undistorted radius filter. -/
theorem mem_search_facilities (rng : Rng) (cosd : ℚ → ℚ) (lat lon : ℚ) (t : String) (q : ℚ)
    (e : FacilityInfo) (he : e ∈ search_facilities rng cosd lat lon t (PyVal.num q)) :
    ∃ i f, f ∈ facilities_for t ∧ f.base_distance ≤ q / 1000 ∧
      e = mkFacilityInfo rng cosd lat lon t i f := by
  unfold search_facilities search_facilities_body at he
  dsimp only [pyDiv] at he
  have he2 := (List.perm_insertionSort byDistance _).mem_iff.mp he
  rcases List.mem_map.mp he2 with ⟨⟨i, f⟩, hp, hef⟩
  rcases List.mem_enum hp with ⟨hlt, heq⟩
  have hf : f ∈ (facilities_for t).filter (fun f => decide (f.base_distance ≤ q / 1000)) := by
    rw [heq]; exact List.getElem_mem hlt
  rcases List.mem_filter.mp hf with ⟨hmem, hdec⟩
  exact ⟨i, f, hmem, of_decide_eq_true hdec, hef.symm⟩

/-- Rounding to the nearest hundredth preserves the lower bound 0.1. -/
theorem round2_ge_tenth (x : ℚ) (h : 0.1 ≤ x) : 0.1 ≤ round2 x := by
  unfold round2
  have h10 : (10 : ℤ) ≤ round (x * 100) := by
    rw [round_eq]
    refine Int.le_floor.mpr ?_
    push_cast
    linarith
  have h11 : (10 : ℚ) ≤ ((round (x * 100) : ℤ) : ℚ) := by exact_mod_cast h10
  linarith

/-- The clamped perturbed distance differs from the base distance by at
most 0.3 when the jitter is drawn from the interval from -0.3 to 0.3
and the base distance is nonnegative. -/
theorem jitter_abs (b u : ℚ) (hb : 0 ≤ b) (h1 : -0.3 ≤ u) (h2 : u ≤ 0.3) :
    |max 0.1 (b + u) - b| ≤ 0.3 := by
  rcases le_or_lt (0.1 : ℚ) (b + u) with h | h
  · rw [max_eq_right h, abs_le]
    constructor <;> linarith
  · rw [max_eq_left h.le, abs_le]
    constructor <;> linarith

/-- Every catalog base distance is nonnegative. -/
theorem catalog_base_nonneg (t : String) (f : CatalogFacility)
    (hf : f ∈ facilities_for t) : 0 ≤ f.base_distance := by
  unfold facilities_for at hf
  split_ifs at hf <;> fin_cases hf <;> norm_num

/-- The search result for radius 1000 around the origin over the
pharmacy catalog, under the deterministic oracle. -/
theorem search_pharm_1km :
    search_facilities rngZero cosOne 0 0 "pharmacy" (PyVal.num 1000) =
      [mkFacilityInfo rngZero cosOne 0 0 "pharmacy" 0
        ⟨"HealthPlus Pharmacy", 4.4, 0.8, "24/7 Service"⟩] := by
  simp only [search_facilities, search_facilities_body, pyDiv, facilities_for, pharmacy_catalog]
  norm_num [List.filter, List.enum, List.enumFrom, List.insertionSort, List.orderedInsert]

/-- C7: for every coordinate, facility type, radius and realization of
the random jitter, every entry of the returned list corresponds by name
to a catalog facility whose undistorted base distance is at most the
requested radius divided by 1000; the filter precedes the jitter. -/
theorem returned_facilities_within_radius (rng : Rng) (cosd : ℚ → ℚ) (lat lon : ℚ)
    (t : String) (q : ℚ) (e : FacilityInfo)
    (he : e ∈ search_facilities rng cosd lat lon t (PyVal.num q)) :
    ∃ f ∈ facilities_for t, e.name = f.name ∧ f.base_distance ≤ q / 1000 := by
  rcases mem_search_facilities rng cosd lat lon t q e he with ⟨i, f, hmem, hle, rfl⟩
  exact ⟨f, hmem, rfl, hle⟩

/-- Witness for C7 at the concrete pharmacy search of radius 1000. -/
theorem returned_facilities_within_radius_witness :
    ∃ f ∈ facilities_for "pharmacy",
      (mkFacilityInfo rngZero cosOne 0 0 "pharmacy" 0
        ⟨"HealthPlus Pharmacy", 4.4, 0.8, "24/7 Service"⟩).name = f.name ∧
      f.base_distance ≤ 1000 / 1000 :=
  returned_facilities_within_radius rngZero cosOne 0 0 "pharmacy" 1000 _
    (by rw [search_pharm_1km]; exact List.mem_singleton.mpr rfl)

/-- C8: for every coordinate, facility type, radius and realization of
the random jitter, the returned list is sorted in ascending order of
the perturbed distance field. -/
theorem returned_facilities_sorted_by_distance (rng : Rng) (cosd : ℚ → ℚ) (lat lon : ℚ)
    (t : String) (radius : PyVal) :
    List.Pairwise (fun a b => a.distance ≤ b.distance)
      (search_facilities rng cosd lat lon t radius) := by
  unfold search_facilities search_facilities_body
  cases radius with
  | num q =>
    dsimp only [pyDiv]
    exact List.sorted_insertionSort byDistance _
  | str s => exact List.Pairwise.nil

/-- C10: whenever the jitter oracle draws from the interval from -0.3
to 0.3, every returned facility record has a reported distance of at
least 0.1 km, and the perturbed distance before rounding differs from
the catalog base distance by at most 0.3 km. -/
theorem perturbed_distance_bounds (rng : Rng) (cosd : ℚ → ℚ) (lat lon : ℚ)
    (t : String) (q : ℚ)
    (hj : ∀ i, -0.3 ≤ rng.uniform i ∧ rng.uniform i ≤ 0.3)
    (e : FacilityInfo) (he : e ∈ search_facilities rng cosd lat lon t (PyVal.num q)) :
    0.1 ≤ e.distance ∧
    ∃ f ∈ facilities_for t, ∃ i : ℕ,
      e = mkFacilityInfo rng cosd lat lon t i f ∧
      |max 0.1 (f.base_distance + rng.uniform i) - f.base_distance| ≤ 0.3 := by
  rcases mem_search_facilities rng cosd lat lon t q e he with ⟨i, f, hmem, hle, rfl⟩
  refine ⟨?_, f, hmem, i, rfl, ?_⟩
  · have hd : (mkFacilityInfo rng cosd lat lon t i f).distance =
        round2 (max 0.1 (f.base_distance + rng.uniform i)) := rfl
    rw [hd]
    exact round2_ge_tenth _ (le_max_left _ _)
  · exact jitter_abs f.base_distance (rng.uniform i)
      (catalog_base_nonneg t f hmem) (hj i).1 (hj i).2

/-- Witness for C10 at the concrete pharmacy search of radius 1000. -/
theorem perturbed_distance_bounds_witness :
    0.1 ≤ (mkFacilityInfo rngZero cosOne 0 0 "pharmacy" 0
      ⟨"HealthPlus Pharmacy", 4.4, 0.8, "24/7 Service"⟩).distance ∧
    ∃ f ∈ facilities_for "pharmacy", ∃ i : ℕ,
      (mkFacilityInfo rngZero cosOne 0 0 "pharmacy" 0
        ⟨"HealthPlus Pharmacy", 4.4, 0.8, "24/7 Service"⟩) =
        mkFacilityInfo rngZero cosOne 0 0 "pharmacy" i f ∧
      |max 0.1 (f.base_distance + rngZero.uniform i) - f.base_distance| ≤ 0.3 :=
  perturbed_distance_bounds rngZero cosOne 0 0 "pharmacy" 1000
    (fun _ => by constructor <;> norm_num [rngZero]) _
    (by rw [search_pharm_1km]; exact List.mem_singleton.mpr rfl)

/-- C9 counterexample: with empty secret store and environment and an
interactively entered session value, the sidebar status lookup yields
the session value but the AIService key resolution yields the demo
sentinel, so the session value does not take precedence for the AI
service. -/
theorem session_key_not_used_by_aiservice :
    main_openai_key (some "sk-user-key") emptyLookup emptyLookup = "sk-user-key" ∧
    aiService_api_key emptyLookup emptyLookup = "demo-openai-key" ∧
    aiService_api_key emptyLookup emptyLookup ≠ "sk-user-key" := by
  refine ⟨?_, rfl, by decide⟩
  unfold main_openai_key
  dsimp only
  rw [if_pos (by decide : ("sk-user-key" : String) ≠ "")]

/-- C9 as amended: the session-entered value takes precedence only in
the sidebar status lookup of main; Config.get_api_key resolves the
secret store first, then a truthy environment value, then (for the
OpenAI key with everything else absent) the demo sentinel; and the
AIService key is exactly Config.get_api_key applied to the OpenAI key
name, with no session input. -/
theorem credential_lookup_order :
    (∀ (session : Option String) (secrets env : Lookup) (s : String),
        session = some s → s ≠ "" → main_openai_key session secrets env = s) ∧
    (∀ (secrets env : Lookup) (k v : String),
        secrets k = some v → get_api_key secrets env k = v) ∧
    (∀ (secrets env : Lookup) (k e : String),
        secrets k = none → env k = some e → e ≠ "" → get_api_key secrets env k = e) ∧
    (∀ secrets env : Lookup,
        secrets "OPENAI_API_KEY" = none → env "OPENAI_API_KEY" = none →
        secrets "OPENAI_KEY" = none → env "OPENAI_KEY" = none →
        secrets "OPENAI_API_TOKEN" = none → env "OPENAI_API_TOKEN" = none →
        secrets "OPENAI_TOKEN" = none → env "OPENAI_TOKEN" = none →
        get_api_key secrets env "OPENAI_API_KEY" = "demo-openai-key") ∧
    (∀ secrets env : Lookup,
        aiService_api_key secrets env = get_api_key secrets env "OPENAI_API_KEY") := by
  refine ⟨?_, ?_, ?_, ?_, fun _ _ => rfl⟩
  · intro session secrets env s hs hne
    subst hs
    unfold main_openai_key
    dsimp only
    rw [if_pos hne]
  · intro secrets env k v h
    unfold get_api_key
    rw [h]
  · intro secrets env k e h1 h2 hne
    unfold get_api_key
    rw [h1, h2]
    dsimp only
    rw [if_pos hne]
  · intro secrets env h1 h2 h3 h4 h5 h6 h7 h8
    unfold get_api_key get_api_key_tail alt_key_lookup
    rw [h1, h2]
    dsimp only
    rw [if_pos rfl, h3, h4]
    dsimp only
    rw [show alt_key_lookup secrets env ["OPENAI_API_TOKEN", "OPENAI_TOKEN"] = none from by
      unfold alt_key_lookup
      rw [h5, h6]
      unfold alt_key_lookup
      rw [h7, h8]
      rfl]
    rfl

/-- Witness for C9 at concrete lookups. -/
theorem credential_lookup_order_witness :
    main_openai_key (some "sk-abc") emptyLookup emptyLookup = "sk-abc" ∧
    get_api_key (fun k => if k = "NEWS_API_KEY" then some "n1" else none) emptyLookup
      "NEWS_API_KEY" = "n1" ∧
    get_api_key emptyLookup (fun k => if k = "NEWS_API_KEY" then some "n2" else none)
      "NEWS_API_KEY" = "n2" ∧
    get_api_key emptyLookup emptyLookup "OPENAI_API_KEY" = "demo-openai-key" ∧
    aiService_api_key emptyLookup emptyLookup =
      get_api_key emptyLookup emptyLookup "OPENAI_API_KEY" :=
  ⟨credential_lookup_order.1 (some "sk-abc") emptyLookup emptyLookup "sk-abc" rfl (by decide),
   credential_lookup_order.2.1 _ emptyLookup "NEWS_API_KEY" "n1" (by simp),
   credential_lookup_order.2.2.1 emptyLookup _ "NEWS_API_KEY" "n2" rfl (by simp) (by decide),
   credential_lookup_order.2.2.2.1 emptyLookup emptyLookup rfl rfl rfl rfl rfl rfl rfl rfl,
   credential_lookup_order.2.2.2.2 emptyLookup emptyLookup⟩

end MediAI
